import Mathlib

/-!
Shallow embedding of src/app.py (AutoSage, a Streamlit front-end over the
Gemini API).  The ambient Streamlit session state (st.session_state.mode,
st.session_state.messages) is modelled as an explicit AppState record, and
each button handler of the page is modelled as a function from AppState (plus
an oracle standing for the remote model call) to the resulting AppState.
Python exceptions are modelled with Except; the remote model is an oracle
argument, so a handler "making no remote call" is visible as the oracle not
being applied (the handler returns none in its outcome component).
-/

namespace AutoSage

/-- A chat turn as stored in st.session_state.messages: a (role, text) pair.
The code appends ("user", user_input) at src/app.py line 286 and
("bot", response) at line 291. -/
abbrev ChatTurn := String × String

/-- The UI mode stored in st.session_state.mode (src/app.py lines 124-125):
either the image-analysis view or the chat-assistant view. -/
inductive Mode where
  | image
  | chat
  deriving DecidableEq, Repr

/-- The session state of src/app.py lines 124-128: a mode and the ordered
list of chat turns. -/
structure AppState where
  mode : Mode
  messages : List ChatTurn
  deriving DecidableEq, Repr

/-- Initial session state (src/app.py lines 124-128): mode "image",
messages empty. -/
def initial_state : AppState := { mode := Mode.image, messages := [] }

/-- Python exceptions relevant to the embedded handlers: the
FileNotFoundError raised by input_image_setup (src/app.py line 104) and any
failure raised by the remote model client. -/
inductive PyError where
  | fileNotFoundError (msg : String)
  | remoteCallError (msg : String)
  deriving DecidableEq, Repr

/-- An uploaded file as the handlers consume it: its MIME type string
(uploaded_file.type) and its byte content (uploaded_file.getvalue()),
modelled as a list of byte values. -/
structure UploadedFile where
  type : String
  value : List Nat
  deriving DecidableEq, Repr

/-- The dictionary built by input_image_setup (src/app.py lines 99-102):
mime_type and data fields. -/
structure ImageData where
  mime_type : String
  data : List Nat
  deriving DecidableEq, Repr

/-- One element of the content list passed to model.generate_content: either
a text prompt or image data (src/app.py line 113 passes a two-element list). -/
inductive Part where
  | text (s : String)
  | image (d : ImageData)
  deriving DecidableEq, Repr

/-- The fixed image-analysis prompt, src/app.py lines 40-89 (a module-level
triple-quoted string constant; the leading and trailing newlines of the
Python literal are part of the value). -/
def image_prompt : String :=
"
You are an automobile expert tasked with providing a detailed overview of any vehicles.

FORMATTING RULES:
- Follow the structure exactly as written below.
- Each section must be on a new line.
- Do NOT combine multiple fields in one sentence.
- Use bullet points properly (one point per line).
- If unsure, mention (Estimated).
- Keep the output crisp, practical, and structured.

The information should be presented in a structured format as follows:

Brand: Name of the vehicle brand.

Model: Specific model of the vehicle.

Launch Year: Since when the Vehicle is available in market.

Vehicle Type: (Scooter / Motorcycle / Sedan / SUV / Hatchback / Electric / Hybrid)

Fuel Type: (Petrol / Diesel / Electric / Hybrid)

Key Features:
- Engine Capacity:
- Transmission Type:
- Top 3 Special Features:

Mileage: Provide the average mileage in km/l (or km/charge for EVs).

Performance:
- Power Output (if known):
- Torque (if known):

Average Price in INR: Mention the price range of the vehicle model.

Maintenance Level: (Low / Moderate / High)

Safety Features:
- ABS / Airbags / Stability Control / etc. (if applicable)

Other Details:
- Maintenance cost (approx):
- Unique selling points:
- Target audience:

Approximate Resale Value: Estimate the resale value of the vehicle after 10 years in Indian Rupees.

End with a short 2-line summary of the vehicle\x27s overall positioning in the Indian market.
"

/-- Reading the module-level constant image_prompt, viewed as the
zero-argument image-prompt builder of the specification. -/
def buildImagePrompt : Unit → String := fun _ => image_prompt

/-- The part of the chat-prompt f-string of build_prompt (src/app.py lines
201-216) that precedes the interpolated user_query slot. -/
def chat_prompt_before_query : String :=
"
You are AutoSage, an expert AI automotive advisor focused on the Indian automobile market.

Your role:
Provide clear, structured, and practical vehicle insights to help users make informed decisions.

FORMATTING RULES:
- Keep responses crisp and easy to scan.
- Use bullet points where helpful.
- Do NOT write long paragraphs.
- Provide realistic price and mileage ranges.
- If uncertain, provide approximate values.
- Focus on decision-making insights.

User Query:
"

/-- The part of the chat-prompt f-string of build_prompt (src/app.py lines
217-268) that follows the interpolated user_query slot. -/
def chat_prompt_after_query : String :=
"

----------------------------------------
RESPONSE STRUCTURE (Use as applicable)
----------------------------------------

If the query is about Buying / Recommendation:

Recommended Models (2-4 options):
- Model Name - Price Range (INR)

For each model include:
- Mileage:
- Key Features (Top 3):
- Best For:

Short Verdict: Which option is better and why.

----------------------------------------

If the query is about Comparison:

Comparison Overview:
- Price Difference:
- Mileage Difference:
- Feature Highlights:
- Pros & Cons (each model)

Recommendation: Which one to choose and for what type of buyer.

----------------------------------------

If the query is about Maintenance:

Maintenance Advice:
- Key Checks:
- Seasonal Tips (if relevant):
- Estimated Service Cost Level:

----------------------------------------

If the query is about Eco-Friendly Vehicles:

Recommended EV/Hybrid Options:
- Model - Price - Range (km/charge)

Include:
- Charging Time:
- Running Cost Benefit:
- Government Incentives (India context if applicable)

End every response with a short 2-3 line practical summary.
"

/-- build_prompt (src/app.py lines 200-268): an f-string interpolating
user_query verbatim between the fixed text before and after the slot. -/
def build_prompt (user_query : String) : String :=
  chat_prompt_before_query ++ user_query ++ chat_prompt_after_query

/-- input_image_setup (src/app.py lines 96-104): with a present file it
returns the mime_type/data dictionary; with None it raises
FileNotFoundError("No file uploaded"). -/
def input_image_setup (uploaded_file : Option UploadedFile) :
    Except PyError ImageData :=
  match uploaded_file with
  | some f => Except.ok { mime_type := f.type, data := f.value }
  | none => Except.error (PyError.fileNotFoundError "No file uploaded")

/-- get_image_response (src/app.py lines 111-114): a single call of the
remote model (the gen oracle) on the two-element content list
[image_prompt, image_data]. -/
def get_image_response (gen : List Part → Except PyError String)
    (image_data : ImageData) : Except PyError String :=
  gen [Part.text image_prompt, Part.image image_data]

/-- The "Analyze Vehicle" button handler (src/app.py lines 158-164): builds
image data from the uploaded file and calls get_image_response.  The branch
never touches st.session_state, so the state is returned unchanged; a raised
exception appears in the Except component. -/
def analyze_clicked (gen : List Part → Except PyError String)
    (s : AppState) (uploaded_file : Option UploadedFile) :
    AppState × Except PyError String :=
  match input_image_setup uploaded_file with
  | Except.error e => (s, Except.error e)
  | Except.ok image_data => (s, get_image_response gen image_data)

/-- The header assistant button handler (src/app.py lines 139-141): sets
st.session_state.mode to "chat" and reruns; messages are not touched. -/
def open_assistant_clicked (s : AppState) : AppState :=
  { s with mode := Mode.chat }

/-- The "Back to Image Analysis" button handler (src/app.py lines 175-177):
sets st.session_state.mode to "image" and reruns; messages are not touched. -/
def back_clicked (s : AppState) : AppState :=
  { s with mode := Mode.image }

/-- appendTurn: the st.session_state.messages.append operation (src/app.py
lines 286 and 291) on the embedded history list. -/
def appendTurn (history : List ChatTurn) (turn : ChatTurn) : List ChatTurn :=
  history ++ [turn]

/-- The "Send" button handler (src/app.py lines 284-292).  Python truthiness
of the text-input string guards the body, so an empty input does nothing.
Otherwise a ("user", user_input) turn is appended, the remote model (the gen
oracle) is called once on build_prompt user_input, and on success a
("bot", response) turn is appended; on failure the exception propagates with
the user turn already in the history.  The second component records the
outcome of the at-most-one remote call: none when no call was made. -/
def send_clicked (gen : String → Except PyError String)
    (s : AppState) (user_input : String) :
    AppState × Option (Except PyError String) :=
  if user_input = "" then
    (s, none)
  else
    let s1 : AppState := { s with messages := appendTurn s.messages ("user", user_input) }
    match gen (build_prompt user_input) with
    | Except.ok response =>
        ({ s1 with messages := appendTurn s1.messages ("bot", response) },
          some (Except.ok response))
    | Except.error e => (s1, some (Except.error e))

/-- API-key resolution at module import (src/app.py lines 17-23): try the
Streamlit secrets store; on any failure fall back to the environment
variable, whose absence yields None (os.getenv does not raise). -/
def resolve_api_key (secrets env : Option String) : Option String :=
  match secrets with
  | some key => some key
  | none => env

/-- Outcome of the startup configuration step.  The configError constructor
exists so that a fail-fast behaviour would be expressible; startup below
shows the code never produces it. -/
inductive StartupOutcome where
  | configured (api_key : Option String)
  | configError
  deriving DecidableEq, Repr

/-- The startup sequence of src/app.py lines 17-26: resolve the key once and
pass whatever was resolved (possibly None) to genai.configure.  The module
contains no absence check and no error path of its own. -/
def startup (secrets env : Option String) : StartupOutcome :=
  StartupOutcome.configured (resolve_api_key secrets env)

/-- The role predicate actually maintained by the code: every appended turn
is labelled "user" or "bot". -/
def roleOk (turn : ChatTurn) : Prop :=
  turn.1 = "user" ∨ turn.1 = "bot"

instance (turn : ChatTurn) : Decidable (roleOk turn) := by
  unfold roleOk
  infer_instance

/-- Helper: folding appendTurn over a list of turns appends them in order. -/
theorem foldl_appendTurn (ts : List ChatTurn) (l : List ChatTurn) :
    ts.foldl appendTurn l = l ++ ts := by
  induction ts generalizing l with
  | nil => simp
  | cons t ts ih => simp [appendTurn, ih]

/-- C1 counterexample: submitting a non-empty query in chat mode does not
produce an ("assistant", t) turn; the second appended turn is labelled
"bot", so the history differs from the one the claim states. -/
theorem send_result_not_assistant_labelled :
    (send_clicked (fun _ => Except.ok "text")
        { mode := Mode.chat, messages := [] } "Best bikes under 2 lakhs").1.messages
      = [("user", "Best bikes under 2 lakhs"), ("bot", "text")] ∧
    (send_clicked (fun _ => Except.ok "text")
        { mode := Mode.chat, messages := [] } "Best bikes under 2 lakhs").1.messages
      ≠ [("user", "Best bikes under 2 lakhs"), ("assistant", "text")] := by
  constructor
  · rfl
  · decide

/-- C1 (amended): submitting a non-empty query q appends the user turn
("user", q), and after the remote call resolves successfully with text t
the turn ("bot", t); the resulting history is the prior history followed by
exactly these two turns in that order, and the successful outcome is
reported. -/
theorem send_success_appends_user_then_bot
    (gen : String → Except PyError String) (s : AppState) (q t : String)
    (hq : q ≠ "") (hg : gen (build_prompt q) = Except.ok t) :
    (send_clicked gen s q).1.messages = s.messages ++ [("user", q), ("bot", t)] ∧
    (send_clicked gen s q).2 = some (Except.ok t) := by
  simp [send_clicked, appendTurn, hq, hg]

/-- C1 witness: the amended theorem instantiated at a concrete submission. -/
theorem send_success_appends_user_then_bot_witness :
    (send_clicked (fun _ => Except.ok "ok")
        { mode := Mode.chat, messages := [] } "Best bikes under 2 lakhs").1.messages
      = [] ++ [("user", "Best bikes under 2 lakhs"), ("bot", "ok")] ∧
    (send_clicked (fun _ => Except.ok "ok")
        { mode := Mode.chat, messages := [] } "Best bikes under 2 lakhs").2
      = some (Except.ok "ok") :=
  send_success_appends_user_then_bot (fun _ => Except.ok "ok")
    { mode := Mode.chat, messages := [] } "Best bikes under 2 lakhs" "ok"
    (by decide) rfl

/-- C2 counterexample: a successful chat submission puts a turn with role
"bot" into the history, and "bot" is neither "user" nor "assistant". -/
theorem chat_history_gets_bot_role :
    (send_clicked (fun _ => Except.ok "hello")
        { mode := Mode.chat, messages := [] } "hi").1.messages
      = [("user", "hi"), ("bot", "hello")] ∧
    ¬ (("bot" : String) = "user" ∨ ("bot" : String) = "assistant") := by
  constructor
  · rfl
  · decide

/-- C2 (amended): every turn ever present in the history has role "user" or
"bot": the send handler preserves this invariant, no other operation
appends any turn, and the initial history satisfies it vacuously. -/
theorem roles_user_or_bot_invariant
    (gen : String → Except PyError String)
    (igen : List Part → Except PyError String)
    (s : AppState) (q : String) (file : Option UploadedFile)
    (h : ∀ turn ∈ s.messages, roleOk turn) :
    (∀ turn ∈ (send_clicked gen s q).1.messages, roleOk turn) ∧
    (open_assistant_clicked s).messages = s.messages ∧
    (back_clicked s).messages = s.messages ∧
    (analyze_clicked igen s file).1.messages = s.messages ∧
    (∀ turn ∈ initial_state.messages, roleOk turn) := by
  refine ⟨?_, rfl, rfl, ?_, by simp [initial_state]⟩
  · by_cases hq : q = ""
    · simpa [send_clicked, hq] using h
    · cases hg : gen (build_prompt q) with
      | ok response =>
          simp only [send_clicked, hq, if_false, hg, appendTurn]
          intro turn ht
          rcases List.mem_append.mp ht with ht1 | ht2
          · rcases List.mem_append.mp ht1 with ht1a | ht1b
            · exact h turn ht1a
            · simp only [List.mem_singleton] at ht1b
              subst ht1b
              exact Or.inl rfl
          · simp only [List.mem_singleton] at ht2
            subst ht2
            exact Or.inr rfl
      | error e =>
          simp only [send_clicked, hq, if_false, hg, appendTurn]
          intro turn ht
          rcases List.mem_append.mp ht with ht1 | ht2
          · exact h turn ht1
          · simp only [List.mem_singleton] at ht2
            subst ht2
            exact Or.inl rfl
  · cases file <;> simp [analyze_clicked, input_image_setup, get_image_response]

/-- C2 witness: the invariant theorem applied to a concrete successful
submission from the empty history; both turns it produces satisfy roleOk. -/
theorem roles_user_or_bot_invariant_witness :
    roleOk ("user", "hi") ∧ roleOk ("bot", "hello") := by
  have h := roles_user_or_bot_invariant (fun _ => Except.ok "hello")
    (fun _ => Except.ok "x") { mode := Mode.chat, messages := [] } "hi" none
    (by simp)
  exact ⟨h.1 ("user", "hi") (by decide), h.1 ("bot", "hello") (by decide)⟩

/-- C3: if the remote call raises during a chat submission of a non-empty
query q, the resulting history is the prior history followed by the user
turn alone (no turn for the failed call), the mode is untouched, and the
error is propagated as the outcome. -/
theorem send_failure_keeps_user_turn_and_propagates
    (gen : String → Except PyError String) (s : AppState) (q : String)
    (e : PyError) (hq : q ≠ "") (hg : gen (build_prompt q) = Except.error e) :
    (send_clicked gen s q).1.messages = s.messages ++ [("user", q)] ∧
    (send_clicked gen s q).1.mode = s.mode ∧
    (send_clicked gen s q).2 = some (Except.error e) := by
  simp [send_clicked, appendTurn, hq, hg]

/-- C3 witness: the failure theorem instantiated at a concrete failing
oracle and submission. -/
theorem send_failure_keeps_user_turn_and_propagates_witness :
    (send_clicked (fun _ => Except.error (PyError.remoteCallError "network"))
        { mode := Mode.chat, messages := [] } "hi").1.messages
      = [] ++ [("user", "hi")] ∧
    (send_clicked (fun _ => Except.error (PyError.remoteCallError "network"))
        { mode := Mode.chat, messages := [] } "hi").1.mode = Mode.chat ∧
    (send_clicked (fun _ => Except.error (PyError.remoteCallError "network"))
        { mode := Mode.chat, messages := [] } "hi").2
      = some (Except.error (PyError.remoteCallError "network")) :=
  send_failure_keeps_user_turn_and_propagates
    (fun _ => Except.error (PyError.remoteCallError "network"))
    { mode := Mode.chat, messages := [] } "hi"
    (PyError.remoteCallError "network") (by decide) rfl

/-- C4: the open-assistant action yields mode chat and the back action
yields mode image, and neither changes the message history in any state (in
particular from the modes the claim names). -/
theorem mode_transitions_preserve_history (s : AppState) :
    (open_assistant_clicked s).mode = Mode.chat ∧
    (open_assistant_clicked s).messages = s.messages ∧
    (back_clicked s).mode = Mode.image ∧
    (back_clicked s).messages = s.messages :=
  ⟨rfl, rfl, rfl, rfl⟩

/-- C5: triggering image analysis with an absent uploaded file fails with
the FileNotFoundError("No file uploaded") raised by input_image_setup, and
both the message history and the mode are unchanged. -/
theorem analyze_no_file_error_state_unchanged
    (gen : List Part → Except PyError String) (s : AppState) :
    analyze_clicked gen s none
      = (s, Except.error (PyError.fileNotFoundError "No file uploaded")) ∧
    (analyze_clicked gen s none).1.messages = s.messages ∧
    (analyze_clicked gen s none).1.mode = s.mode :=
  ⟨rfl, rfl, rfl⟩

/-- C6 counterexample: with the key absent from both the secrets store and
the environment, startup still resolves to a None key and proceeds to the
configure call; it does not produce a configuration error. -/
theorem startup_missing_key_not_config_error :
    startup none none = StartupOutcome.configured none ∧
    startup none none ≠ StartupOutcome.configError := by
  constructor
  · rfl
  · decide

/-- C6 (amended): the key is resolved exactly once at process start, from
the secrets store first and the environment variable as fallback; when it is
absent from both, the resolved value is None and is still handed to the
client configure call — the program itself raises no configuration error. -/
theorem api_key_resolution_priority (k : String) (secrets env : Option String) :
    resolve_api_key (some k) env = some k ∧
    resolve_api_key none env = env ∧
    startup secrets env = StartupOutcome.configured (resolve_api_key secrets env) :=
  ⟨rfl, rfl, rfl⟩

/-- C7: for every string q (in particular every non-empty one, and those
containing the template delimiter text), the chat prompt contains q verbatim
as a substring: it is the fixed text before the slot, q unaltered, and the
fixed text after the slot. -/
theorem build_prompt_contains_query (q : String) :
    ∃ pre post, build_prompt q = pre ++ q ++ post :=
  ⟨chat_prompt_before_query, chat_prompt_after_query, rfl⟩

/-- C8: the image prompt builder is deterministic and input-independent,
and get_image_response makes a single model invocation pairing exactly this
fixed prompt with the image data. -/
theorem image_prompt_fixed_and_paired :
    (∀ u v : Unit, buildImagePrompt u = buildImagePrompt v) ∧
    (∀ (gen : List Part → Except PyError String) (d : ImageData),
      get_image_response gen d = gen [Part.text (buildImagePrompt ()), Part.image d]) :=
  ⟨fun _ _ => rfl, fun _ _ => rfl⟩

/-- C9: a sequence of N appendTurn calls from the empty history yields a
history of length N whose iteration order is the call order, and appendTurn
leaves every previously appended entry in place. -/
theorem append_turn_order_preserving (ts : List ChatTurn) :
    (ts.foldl appendTurn []).length = ts.length ∧
    ts.foldl appendTurn [] = ts ∧
    ∀ (l : List ChatTurn) (t : ChatTurn), (appendTurn l t).take l.length = l := by
  refine ⟨?_, ?_, ?_⟩
  · simp [foldl_appendTurn]
  · simp [foldl_appendTurn]
  · intro l t
    simp [appendTurn, List.take_left]

/-- C10: pressing Send with the empty input string is a no-op: the state is
returned unchanged and no remote call is made (outcome none means the gen
oracle was never applied). -/
theorem send_empty_input_noop (gen : String → Except PyError String)
    (s : AppState) :
    send_clicked gen s "" = (s, none) := by
  simp [send_clicked]

end AutoSage
